import Mathlib

/-!
Shallow embedding of the epidemic-simulation engine
(source: `src/epidemic_simulation.py`).

Modelling conventions:
* Floating-point quantities (positions, velocities, probabilities) are
  embedded as exact rationals `ℚ`.
* Every call to the random number generator is replaced by an explicit
  parameter: a `ℚ` value in place of `random.random()`, a chosen point in
  place of a uniformly sampled point, a chosen id list in place of
  `random.sample`.  Theorems quantify over these parameters, so they hold
  for every possible outcome of the draws.
* `pygame.math.Vector2.distance_to(p) < INFECTION_RADIUS` is embedded as
  the equivalent exact comparison `distSq < INFECTION_RADIUS ^ 2` of the
  squared Euclidean distance (both sides are nonnegative, so squaring is
  an order isomorphism).
* Python object identity (`id(agent)`, `agent != self`) is embedded as a
  stable numeric identity field `aid`; the population is created with
  distinct `aid`s.
* The positional part of `Agent.update` (source lines 76-114: quarantine
  steering, jitter, flocking, bounce and clamp) writes only `position` and
  `velocity` and always falls through to `return True`; it is embedded as
  an explicit parameter `move` that can produce any new position and
  velocity, so theorems hold for every positional outcome.  No claim in
  this development depends on the numeric trajectory.
* The source temporarily overwrites the global `RECOVERY_PROB` with
  `min(0.99, RECOVERY_PROB * recovery_prob_multiplier)` around each
  per-agent update; this is embedded by passing that effective value as
  the explicit argument `effR`, which is what the swap achieves.
-/

namespace Epidemic

/-! ### Constants (source lines 27-35) -/

def INITIAL_POPULATION : ℕ := 200
def INITIAL_INFECTED : ℕ := 5
def INFECTION_RADIUS : ℚ := 15
def BASE_INFECTION_PROB : ℚ := 2/100
def RECOVERY_TIME : ℕ := 300
def RECOVERY_PROB : ℚ := 7/10
def VACCINATION_RATE : ℚ := 3/10
def VACCINATION_SUCCESS_RATE : ℚ := 9/10
def MOVEMENT_SPEED : ℚ := 2

/-! ### Agent state (source class `AgentState`) -/

inductive AgentState where
  | susceptible
  | infected
  | recovered
  | immune
deriving DecidableEq, Repr

/-- The transition edges the spec allows: Susceptible→{Infected, Immune},
Infected→Recovered (death is modelled as removal, not a state), and every
state may stay where it is; Recovered and Immune are absorbing. -/
def stepAllowed : AgentState → AgentState → Bool
  | .susceptible, .susceptible => true
  | .susceptible, .infected => true
  | .susceptible, .immune => true
  | .infected, .infected => true
  | .infected, .recovered => true
  | .recovered, .recovered => true
  | .immune, .immune => true
  | _, _ => false

/-! ### Contact-time dictionary (Python `dict` keyed by `id(agent)`),
embedded as an association list with the usual lookup / insert / delete. -/

def ctLookup : List (ℕ × ℕ) → ℕ → Option ℕ
  | [], _ => none
  | (k, v) :: rest, key => if k = key then some v else ctLookup rest key

def ctInsert : List (ℕ × ℕ) → ℕ → ℕ → List (ℕ × ℕ)
  | [], key, v => [(key, v)]
  | (k, w) :: rest, key, v =>
      if k = key then (key, v) :: rest else (k, w) :: ctInsert rest key v

def ctErase : List (ℕ × ℕ) → ℕ → List (ℕ × ℕ)
  | [], _ => []
  | (k, w) :: rest, key =>
      if k = key then ctErase rest key else (k, w) :: ctErase rest key

/-! ### Quarantine zone (source class `QuarantineZone`) -/

structure QuarantineZone where
  x : ℚ
  y : ℚ
  width : ℚ
  height : ℚ
  capacity : ℕ
  current_count : ℕ
deriving DecidableEq, Repr

def QuarantineZone.has_space (z : QuarantineZone) : Bool :=
  z.current_count < z.capacity

/-! ### Agent (source class `Agent`) -/

structure Agent where
  aid : ℕ
  posX : ℚ
  posY : ℚ
  velX : ℚ
  velY : ℚ
  speed : ℚ
  state : AgentState
  infection_time : ℕ
  contact_time : List (ℕ × ℕ)
  in_quarantine : Bool
  quarantine_position : Option (ℚ × ℚ)
deriving DecidableEq, Repr

/-- Squared Euclidean distance between two agents' positions. -/
def distSq (a b : Agent) : ℚ :=
  (a.posX - b.posX) ^ 2 + (a.posY - b.posY) ^ 2

/-- The per-contact infection probability computed at source line 134:
`BASE_INFECTION_PROB * (1 + self.contact_time[agent_id] * 0.01)`.
Note that the engine's `infection_prob_multiplier` does not appear here. -/
def infection_chance (ct : ℕ) : ℚ :=
  BASE_INFECTION_PROB * (1 + (ct : ℚ) * (1/100))

/-- `Agent.vaccinate` (source lines 145-151); `draw` stands for
`random.random()`.  Returns the updated agent and the boolean result. -/
def Agent.vaccinate (a : Agent) (draw : ℚ) : Agent × Bool :=
  if a.state = AgentState.susceptible then
    if draw < VACCINATION_SUCCESS_RATE then
      ({ a with state := AgentState.immune }, true)
    else (a, false)
  else (a, false)

/-- Apply a positional outcome: only `position` and `velocity` change,
mirroring that source lines 76-114 assign only those two fields. -/
def Agent.applyMove (move : Agent → (ℚ × ℚ) × (ℚ × ℚ)) (a : Agent) : Agent :=
  { a with
    posX := (move a).1.1
    posY := (move a).1.2
    velX := (move a).2.1
    velY := (move a).2.2 }

/-- The quarantine-join scan of source lines 70-74: take the first zone
with free capacity, set the flag and the target position (`place z` stands
for `zone.get_position()`).  The zone itself is not modified — the source
never writes `current_count`. -/
def Agent.quarantineJoin (a : Agent) (zones : List QuarantineZone)
    (place : QuarantineZone → ℚ × ℚ) : Agent :=
  match zones.find? (fun z => z.has_space) with
  | some z =>
      { a with in_quarantine := true, quarantine_position := some (place z) }
  | none => a

/-- `Agent.update` (source lines 55-116), with the positional part
abstracted into `move` as explained in the header.  `effR` is the
effective recovery probability and `draw` the recovery `random.random()`.
Returns `none` when the agent dies (`return False`). -/
def Agent.update (a : Agent) (zones : List QuarantineZone) (enableQ : Bool)
    (effR draw : ℚ) (place : QuarantineZone → ℚ × ℚ)
    (move : Agent → (ℚ × ℚ) × (ℚ × ℚ)) : Option Agent :=
  let step : Option Agent :=
    if a.state = AgentState.infected then
      let a1 : Agent := { a with infection_time := a.infection_time + 1 }
      let a2? : Option Agent :=
        if RECOVERY_TIME ≤ a1.infection_time then
          if draw < effR then
            some { a1 with state := AgentState.recovered, in_quarantine := false }
          else none
        else some a1
      a2?.map fun a2 =>
        if enableQ && !a2.in_quarantine then a2.quarantineJoin zones place else a2
    else some a
  step.map (Agent.applyMove move)

/-- The loop body of `Agent.check_infection` (source lines 123-143) over
the remaining population list.  `rng k` stands for the `random.random()`
of the `k`-th in-radius encounter of this pass; a successful draw infects
the agent and stops the loop (the `return` at line 138). -/
def checkInfectionLoop (rng : ℕ → ℚ) : Agent → ℕ → List Agent → Agent
  | self, _, [] => self
  | self, k, other :: rest =>
    if other.state = AgentState.infected ∧ other.aid ≠ self.aid then
      if distSq self other < INFECTION_RADIUS ^ 2 then
        let ct := (ctLookup self.contact_time other.aid).getD 0 + 1
        let self1 : Agent :=
          { self with contact_time := ctInsert self.contact_time other.aid ct }
        if rng k < infection_chance ct then
          { self1 with state := AgentState.infected, infection_time := 0 }
        else
          checkInfectionLoop rng self1 (k + 1) rest
      else
        checkInfectionLoop rng
          { self with contact_time := ctErase self.contact_time other.aid } k rest
    else
      checkInfectionLoop rng self k rest

/-- `Agent.check_infection` (source lines 118-143). -/
def Agent.check_infection (self : Agent) (agents : List Agent)
    (rng : ℕ → ℚ) : Agent :=
  if self.state ≠ AgentState.susceptible then self
  else checkInfectionLoop rng self 0 agents

/-! ### Statistics (source class `Statistics`) -/

structure Statistics where
  max_history : ℕ
  susceptible_history : List ℕ
  infected_history : List ℕ
  recovered_history : List ℕ
  immune_history : List ℕ
  infection_rate_history : List ℚ
  recovery_rate_history : List ℚ
  death_count : ℕ
  total_infections : ℤ
  total_recoveries : ℤ
  prev_infected : ℕ
  prev_recovered : ℕ
deriving DecidableEq, Repr

/-- `Statistics.__init__` with the default `max_history=500`. -/
def Statistics.mk0 : Statistics :=
  { max_history := 500
    susceptible_history := []
    infected_history := []
    recovered_history := []
    immune_history := []
    infection_rate_history := []
    recovery_rate_history := []
    death_count := 0
    total_infections := 0
    total_recoveries := 0
    prev_infected := 0
    prev_recovered := 0 }

/-- `deque(maxlen=m).append(x)`: append, dropping the oldest entries when
the length would exceed `m`. -/
def pushBounded {α : Type} (l : List α) (m : ℕ) (x : α) : List α :=
  let l2 := l ++ [x]
  if m < l2.length then l2.drop (l2.length - m) else l2

/-- `sum(1 for a in agents if a.state == s)`. -/
def countState (s : AgentState) (agents : List Agent) : ℕ :=
  (agents.filter fun a => a.state = s).length

/-- `Statistics.update` (source lines 213-241). -/
def Statistics.update (st : Statistics) (agents : List Agent) : Statistics :=
  let susceptible := countState AgentState.susceptible agents
  let infected := countState AgentState.infected agents
  let recovered := countState AgentState.recovered agents
  let immune := countState AgentState.immune agents
  let new_infections : ℤ :=
    max 0 ((infected : ℤ) - st.prev_infected + ((st.prev_recovered : ℤ) - recovered))
  let new_recoveries : ℤ := max 0 ((recovered : ℤ) - st.prev_recovered)
  let infection_rate : ℚ :=
    (new_infections : ℚ) / ((max 1 agents.length : ℕ) : ℚ) * 100
  let recovery_rate : ℚ :=
    if 0 < infected then (new_recoveries : ℚ) / ((max 1 infected : ℕ) : ℚ) * 100
    else 0
  { st with
    susceptible_history := pushBounded st.susceptible_history st.max_history susceptible
    infected_history := pushBounded st.infected_history st.max_history infected
    recovered_history := pushBounded st.recovered_history st.max_history recovered
    immune_history := pushBounded st.immune_history st.max_history immune
    infection_rate_history :=
      pushBounded st.infection_rate_history st.max_history infection_rate
    recovery_rate_history :=
      pushBounded st.recovery_rate_history st.max_history recovery_rate
    prev_infected := infected
    prev_recovered := recovered
    total_infections :=
      if 0 < new_infections then st.total_infections + new_infections
      else st.total_infections
    total_recoveries :=
      if 0 < new_recoveries then st.total_recoveries + new_recoveries
      else st.total_recoveries }

/-! ### The engine (source class `EpidemicSimulation`) -/

structure Simulation where
  agents : List Agent
  statistics : Statistics
  quarantine_zones : List QuarantineZone
  infection_prob_multiplier : ℚ
  recovery_prob_multiplier : ℚ
  vaccination_rate_multiplier : ℚ
  enable_quarantine : Bool
  paused : Bool
  frame_count : ℕ
deriving DecidableEq, Repr

/-- The random draws one engine tick consumes, indexed by the position of
the agent in the population list. -/
structure Rand where
  recoveryDraw : ℕ → ℚ
  place : ℕ → QuarantineZone → ℚ × ℚ
  move : ℕ → Agent → (ℚ × ℚ) × (ℚ × ℚ)
  contactRng : ℕ → ℕ → ℚ

/-- The survivor loop of `EpidemicSimulation.update` (source lines
419-432): update each agent in order, collect survivors in order, count
deaths. -/
def updateAgents (zones : List QuarantineZone) (enableQ : Bool) (effR : ℚ)
    (r : Rand) : ℕ → List Agent → List Agent × ℕ
  | _, [] => ([], 0)
  | i, a :: rest =>
    match a.update zones enableQ effR (r.recoveryDraw i) (r.place i) (r.move i) with
    | some a' =>
        let res := updateAgents zones enableQ effR r (i + 1) rest
        (a' :: res.1, res.2)
    | none =>
        let res := updateAgents zones enableQ effR r (i + 1) rest
        (res.1, res.2 + 1)

/-- The contact pass of source lines 435-436: `for agent in self.agents:
agent.check_infection(self.agents)`.  The Python list mutates in place, so
the `i`-th agent sees the already-updated agents `done` before itself and
the not-yet-checked `todo` after itself (same-tick visibility). -/
def contactPassAux (rng : ℕ → ℕ → ℚ) : List Agent → ℕ → List Agent → List Agent
  | done, _, [] => done
  | done, i, a :: rest =>
    let a' := a.check_infection (done ++ a :: rest) (rng i)
    contactPassAux rng (done ++ [a']) (i + 1) rest

def contactPass (agents : List Agent) (rng : ℕ → ℕ → ℚ) : List Agent :=
  contactPassAux rng [] 0 agents

/-- `EpidemicSimulation.update` (source lines 406-440).  The local
`_effective_infection_prob` mirrors the assignment at source line 415,
which the source never reads afterwards. -/
def Simulation.update (sim : Simulation) (r : Rand) : Simulation :=
  if sim.paused then sim
  else
    let frame := sim.frame_count + 1
    let _effective_infection_prob :=
      BASE_INFECTION_PROB * sim.infection_prob_multiplier
    let effR : ℚ := min (99/100) (RECOVERY_PROB * sim.recovery_prob_multiplier)
    let res := updateAgents sim.quarantine_zones sim.enable_quarantine effR r 0 sim.agents
    let stats1 : Statistics :=
      { sim.statistics with death_count := sim.statistics.death_count + res.2 }
    let agents2 := contactPass res.1 r.contactRng
    let stats2 := if frame % 5 = 0 then stats1.update agents2 else stats1
    { sim with agents := agents2, statistics := stats2, frame_count := frame }

/-- The random draws a population reinitialization consumes. -/
structure ResetRand where
  initPos : ℕ → (ℚ × ℚ) × (ℚ × ℚ)
  gateDraw : ℚ
  sampleIds : List ℕ → ℕ → List ℕ
  vaccDraw : ℕ → ℚ

/-- `Agent.__init__` (source lines 44-53) for a fresh agent: the given
state, a random position and heading (passed explicitly as `px py vx vy`),
zero infection age, empty contact map, not quarantined. -/
def Agent.init (aid : ℕ) (px py vx vy : ℚ) (st : AgentState) : Agent :=
  { aid := aid
    posX := px
    posY := py
    velX := vx
    velY := vy
    speed := MOVEMENT_SPEED
    state := st
    infection_time := 0
    contact_time := []
    in_quarantine := false
    quarantine_position := none }

/-- The population built by the two creation loops of
`reset_simulation` (source lines 338-344): 195 Susceptible agents then 5
Infected ones, with distinct identities. -/
def initialPopulation (r : ResetRand) : List Agent :=
  ((List.range (INITIAL_POPULATION - INITIAL_INFECTED)).map fun i =>
    Agent.init i (r.initPos i).1.1 (r.initPos i).1.2 (r.initPos i).2.1
      (r.initPos i).2.2 AgentState.susceptible) ++
  ((List.range INITIAL_INFECTED).map fun i =>
    Agent.init (INITIAL_POPULATION - INITIAL_INFECTED + i)
      (r.initPos (INITIAL_POPULATION - INITIAL_INFECTED + i)).1.1
      (r.initPos (INITIAL_POPULATION - INITIAL_INFECTED + i)).1.2
      (r.initPos (INITIAL_POPULATION - INITIAL_INFECTED + i)).2.1
      (r.initPos (INITIAL_POPULATION - INITIAL_INFECTED + i)).2.2
      AgentState.infected)

/-- `EpidemicSimulation.reset_simulation` (source lines 332-351): rebuild
the population, reset statistics and the frame counter, then — gated by
`random.random() < vaccination_rate_multiplier` — attempt vaccination of a
`random.sample` of the susceptible agents of size
`min(int(INITIAL_POPULATION * VACCINATION_RATE * multiplier), #susceptible)`.
Note the zones are untouched, as in the source. -/
def Simulation.reset_simulation (sim : Simulation) (r : ResetRand) : Simulation :=
  let agents0 := initialPopulation r
  let agents1 : List Agent :=
    if r.gateDraw < sim.vaccination_rate_multiplier then
      let num : ℕ :=
        (⌊(INITIAL_POPULATION : ℚ) * VACCINATION_RATE *
            sim.vaccination_rate_multiplier⌋).toNat
      let cands := (agents0.filter fun a => a.state = AgentState.susceptible).map Agent.aid
      let chosen := r.sampleIds cands (min num cands.length)
      agents0.map fun a =>
        if a.aid ∈ chosen then (a.vaccinate (r.vaccDraw a.aid)).1 else a
    else agents0
  { sim with agents := agents1, statistics := Statistics.mk0, frame_count := 0 }

/-- `EpidemicSimulation.load_scenario` (source lines 353-369): reset
first, then install the scenario's multiplier bundle and quarantine flag. -/
def Simulation.load_scenario (sim : Simulation) (sid : ℕ) (r : ResetRand) :
    Simulation :=
  let sim1 := sim.reset_simulation r
  if sid = 1 then
    { sim1 with
      infection_prob_multiplier := 2
      recovery_prob_multiplier := 1/2
      vaccination_rate_multiplier := 0
      enable_quarantine := false }
  else if sid = 2 then
    { sim1 with
      infection_prob_multiplier := 4/5
      recovery_prob_multiplier := 3/2
      vaccination_rate_multiplier := 3/2
      enable_quarantine := true }
  else sim1

/-- Modelled from the spec (§4.2): the per-contact infection probability
the spec prescribes, `base probability × infection multiplier ×
(1 + contact-duration × 0.01)`; stated separately so it can be compared
with the `infection_chance` that the source actually computes. -/
def spec_infection_chance (mult : ℚ) (ct : ℕ) : ℚ :=
  BASE_INFECTION_PROB * mult * (1 + (ct : ℚ) * (1/100))

/-! ### Basic lemmas about the contact-time dictionary -/

theorem ctLookup_insert_self (m : List (ℕ × ℕ)) (k v : ℕ) :
    ctLookup (ctInsert m k v) k = some v := by
  induction m with
  | nil => simp [ctInsert, ctLookup]
  | cons hd tl ih =>
    obtain ⟨a, b⟩ := hd
    by_cases hk : a = k <;> simp [ctInsert, ctLookup, hk, ih]

theorem ctLookup_insert_ne (m : List (ℕ × ℕ)) (k v k' : ℕ) (h : k ≠ k') :
    ctLookup (ctInsert m k v) k' = ctLookup m k' := by
  induction m with
  | nil => simp [ctInsert, ctLookup, h]
  | cons hd tl ih =>
    obtain ⟨a, b⟩ := hd
    by_cases hk : a = k <;> simp [ctInsert, ctLookup, hk, h, ih]

theorem ctLookup_erase_self (m : List (ℕ × ℕ)) (k : ℕ) :
    ctLookup (ctErase m k) k = none := by
  induction m with
  | nil => simp [ctErase, ctLookup]
  | cons hd tl ih =>
    obtain ⟨a, b⟩ := hd
    by_cases hk : a = k <;> simp [ctErase, ctLookup, hk, ih]

theorem ctLookup_erase_ne (m : List (ℕ × ℕ)) (k k' : ℕ) (h : k ≠ k') :
    ctLookup (ctErase m k) k' = ctLookup m k' := by
  induction m with
  | nil => simp [ctErase, ctLookup]
  | cons hd tl ih =>
    obtain ⟨a, b⟩ := hd
    by_cases hk : a = k <;> simp [ctErase, ctLookup, hk, h, ih]

/-! ### Field-preservation lemmas for the agent operations -/

@[simp] theorem applyMove_state (move : Agent → (ℚ × ℚ) × (ℚ × ℚ)) (a : Agent) :
    (Agent.applyMove move a).state = a.state := rfl

@[simp] theorem applyMove_in_quarantine (move : Agent → (ℚ × ℚ) × (ℚ × ℚ)) (a : Agent) :
    (Agent.applyMove move a).in_quarantine = a.in_quarantine := rfl

@[simp] theorem applyMove_aid (move : Agent → (ℚ × ℚ) × (ℚ × ℚ)) (a : Agent) :
    (Agent.applyMove move a).aid = a.aid := rfl

@[simp] theorem quarantineJoin_state (a : Agent) (zones : List QuarantineZone)
    (place : QuarantineZone → ℚ × ℚ) :
    (a.quarantineJoin zones place).state = a.state := by
  unfold Agent.quarantineJoin
  cases zones.find? (fun z => z.has_space) <;> rfl

theorem stepAllowed_refl (s : AgentState) : stepAllowed s s = true := by
  cases s <;> rfl

theorem find?_isSome_eq_any {α : Type} (p : α → Bool) (l : List α) :
    (l.find? p).isSome = l.any p := by
  induction l with
  | nil => rfl
  | cons x xs ih => by_cases h : p x <;> simp [List.find?_cons, h, ih]

/-! ### Lemmas about the contact-check loop -/

theorem checkInfectionLoop_pos (rng : ℕ → ℚ) (l : List Agent) :
    ∀ (self : Agent) (k : ℕ),
      (checkInfectionLoop rng self k l).posX = self.posX ∧
      (checkInfectionLoop rng self k l).posY = self.posY ∧
      (checkInfectionLoop rng self k l).aid = self.aid := by
  induction l with
  | nil => intro self k; exact ⟨rfl, rfl, rfl⟩
  | cons other rest ih =>
    intro self k
    by_cases h1 : other.state = AgentState.infected ∧ other.aid ≠ self.aid
    · by_cases h2 : distSq self other < INFECTION_RADIUS ^ 2
      · by_cases h3 : rng k <
            infection_chance ((ctLookup self.contact_time other.aid).getD 0 + 1)
        · simp [checkInfectionLoop, h1, h2, h3]
        · simp only [checkInfectionLoop, if_pos h1, if_pos h2, if_neg h3]
          exact ih _ _
      · simp only [checkInfectionLoop, if_pos h1, if_neg h2]
        exact ih _ _
    · simp only [checkInfectionLoop, if_neg h1]
      exact ih _ _

theorem checkInfectionLoop_state (rng : ℕ → ℚ) (l : List Agent) :
    ∀ (self : Agent) (k : ℕ),
      (checkInfectionLoop rng self k l).state = self.state ∨
      (checkInfectionLoop rng self k l).state = AgentState.infected := by
  induction l with
  | nil => intro self k; exact Or.inl rfl
  | cons other rest ih =>
    intro self k
    by_cases h1 : other.state = AgentState.infected ∧ other.aid ≠ self.aid
    · by_cases h2 : distSq self other < INFECTION_RADIUS ^ 2
      · by_cases h3 : rng k <
            infection_chance ((ctLookup self.contact_time other.aid).getD 0 + 1)
        · simp [checkInfectionLoop, h1, h2, h3]
        · simp only [checkInfectionLoop, if_pos h1, if_pos h2, if_neg h3]
          exact ih _ _
      · simp only [checkInfectionLoop, if_pos h1, if_neg h2]
        exact ih _ _
    · simp only [checkInfectionLoop, if_neg h1]
      exact ih _ _

/-- If the contact loop runs to completion without infecting `self` (the
result is still Susceptible), then provided every occurrence of identity
`pid` in the list is an Infected agent out of radius, and `pid` either
occurs in the list or has no entry to begin with, the final contact map
has no entry for `pid`. -/
theorem checkInfectionLoop_erased (rng : ℕ → ℚ) (pid : ℕ) (l : List Agent) :
    ∀ (self : Agent) (k : ℕ),
      (checkInfectionLoop rng self k l).state = AgentState.susceptible →
      pid ≠ self.aid →
      (∀ q ∈ l, q.aid = pid → q.state = AgentState.infected ∧
          ¬ distSq self q < INFECTION_RADIUS ^ 2) →
      ((∃ q ∈ l, q.aid = pid) ∨ ctLookup self.contact_time pid = none) →
      ctLookup (checkInfectionLoop rng self k l).contact_time pid = none := by
  induction l with
  | nil =>
    intro self k _ _ _ hmem
    rcases hmem with ⟨q, hq, _⟩ | hnone
    · simp at hq
    · exact hnone
  | cons other rest ih =>
    intro self k hres hpid hall hmem
    by_cases h1 : other.state = AgentState.infected ∧ other.aid ≠ self.aid
    · by_cases h2 : distSq self other < INFECTION_RADIUS ^ 2
      · have hne : other.aid ≠ pid := by
          intro he
          exact (hall other (List.mem_cons_self _ _) he).2 h2
        by_cases h3 : rng k <
            infection_chance ((ctLookup self.contact_time other.aid).getD 0 + 1)
        · exfalso
          simp [checkInfectionLoop, h1, h2, h3] at hres
        · simp only [checkInfectionLoop, if_pos h1, if_pos h2, if_neg h3] at hres ⊢
          refine ih _ _ hres hpid ?_ ?_
          · intro q hq hqa
            exact hall q (List.mem_cons_of_mem _ hq) hqa
          · rcases hmem with ⟨q, hq, hqa⟩ | hnone
            · rcases List.mem_cons.mp hq with rfl | hq'
              · exact absurd hqa hne
              · exact Or.inl ⟨q, hq', hqa⟩
            · refine Or.inr ?_
              show ctLookup (ctInsert self.contact_time other.aid
                ((ctLookup self.contact_time other.aid).getD 0 + 1)) pid = none
              rw [ctLookup_insert_ne _ _ _ _ hne]
              exact hnone
      · simp only [checkInfectionLoop, if_pos h1, if_neg h2] at hres ⊢
        refine ih _ _ hres hpid ?_ ?_
        · intro q hq hqa
          exact hall q (List.mem_cons_of_mem _ hq) hqa
        · by_cases hoa : other.aid = pid
          · refine Or.inr ?_
            show ctLookup (ctErase self.contact_time other.aid) pid = none
            rw [hoa]
            exact ctLookup_erase_self _ _
          · rcases hmem with ⟨q, hq, hqa⟩ | hnone
            · rcases List.mem_cons.mp hq with rfl | hq'
              · exact absurd hqa hoa
              · exact Or.inl ⟨q, hq', hqa⟩
            · refine Or.inr ?_
              show ctLookup (ctErase self.contact_time other.aid) pid = none
              rw [ctLookup_erase_ne _ _ _ hoa]
              exact hnone
    · simp only [checkInfectionLoop, if_neg h1] at hres ⊢
      refine ih _ _ hres hpid ?_ ?_
      · intro q hq hqa
        exact hall q (List.mem_cons_of_mem _ hq) hqa
      · rcases hmem with ⟨q, hq, hqa⟩ | hnone
        · rcases List.mem_cons.mp hq with rfl | hq'
          · exfalso
            have hq2 := hall q (List.mem_cons_self _ _) hqa
            exact h1 ⟨hq2.1, fun hcon => hpid (hqa ▸ hcon)⟩
          · exact Or.inl ⟨q, hq', hqa⟩
        · exact Or.inr hnone

/-! ### Length lemmas for the engine passes -/

theorem updateAgents_length (zones : List QuarantineZone) (enableQ : Bool)
    (effR : ℚ) (r : Rand) :
    ∀ (l : List Agent) (i : ℕ),
      (updateAgents zones enableQ effR r i l).1.length ≤ l.length := by
  intro l
  induction l with
  | nil => intro i; simp [updateAgents]
  | cons a rest ih =>
    intro i
    unfold updateAgents
    cases a.update zones enableQ effR (r.recoveryDraw i) (r.place i) (r.move i) with
    | none => exact Nat.le_succ_of_le (ih (i + 1))
    | some a' => simpa using ih (i + 1)

theorem contactPassAux_length (rng : ℕ → ℕ → ℚ) :
    ∀ (todo done : List Agent) (i : ℕ),
      (contactPassAux rng done i todo).length = done.length + todo.length := by
  intro todo
  induction todo with
  | nil => intro done i; simp [contactPassAux]
  | cons a rest ih =>
    intro done i
    unfold contactPassAux
    rw [ih]
    simp
    omega

theorem contactPass_length (agents : List Agent) (rng : ℕ → ℕ → ℚ) :
    (contactPass agents rng).length = agents.length := by
  unfold contactPass
  rw [contactPassAux_length]
  simp

/-! ### Concrete fixtures used by witnesses and counterexamples -/

/-- A positional outcome that leaves position and velocity unchanged. -/
def idMove : Agent → (ℚ × ℚ) × (ℚ × ℚ) := fun a =>
  ((a.posX, a.posY), (a.velX, a.velY))

/-- A tick's draws: every `random.random()` returns 1 (no trial succeeds),
placement at (950, 100), no motion. -/
def stillRand : Rand :=
  { recoveryDraw := fun _ => 1
    place := fun _ _ => (950, 100)
    move := fun _ => idMove
    contactRng := fun _ _ => 1 }

def zone0 : QuarantineZone :=
  { x := 900, y := 50, width := 200, height := 200, capacity := 50, current_count := 0 }

def agentS : Agent :=
  { aid := 0, posX := 100, posY := 100, velX := 1, velY := 0, speed := 2
    state := AgentState.susceptible, infection_time := 0, contact_time := []
    in_quarantine := false, quarantine_position := none }

def agentR : Agent :=
  { agentS with aid := 1, state := AgentState.recovered }

def infAgent : Agent :=
  { agentS with aid := 2, state := AgentState.infected }

def c2sim : Simulation :=
  { agents := [infAgent], statistics := Statistics.mk0, quarantine_zones := [zone0]
    infection_prob_multiplier := 1, recovery_prob_multiplier := 1
    vaccination_rate_multiplier := 1, enable_quarantine := true
    paused := false, frame_count := 0 }

/-- A susceptible agent holding a stale contact-duration entry for
identity 7. -/
def staleAgent : Agent :=
  { aid := 0, posX := 0, posY := 0, velX := 1, velY := 0, speed := 2
    state := AgentState.susceptible, infection_time := 0, contact_time := [(7, 3)]
    in_quarantine := false, quarantine_position := none }

/-- A formerly infected partner (identity 7) that has recovered, 100 units
away from `staleAgent`. -/
def recPartner : Agent :=
  { aid := 7, posX := 100, posY := 0, velX := 1, velY := 0, speed := 2
    state := AgentState.recovered, infection_time := 0, contact_time := []
    in_quarantine := false, quarantine_position := none }

/-- A still-infected partner (identity 7), 100 units away from
`staleAgent`. -/
def farInfected : Agent :=
  { recPartner with state := AgentState.infected }

/-- An infected agent one tick short of the recovery threshold, already in
quarantine. -/
def c4agent : Agent :=
  { aid := 0, posX := 100, posY := 100, velX := 1, velY := 0, speed := 2
    state := AgentState.infected, infection_time := 299, contact_time := []
    in_quarantine := true, quarantine_position := some (950, 100) }

/-! ### Claim C2 -/

/-- C2, counterexample: in a tick where an Infected, not-yet-quarantined
agent joins the (empty, capacity-50) quarantine zone — its flag is set to
true — the zone's occupancy count stays 0 instead of being incremented
to 1: the source never writes `current_count`. -/
theorem C2_occupancy_not_incremented :
    c2sim.quarantine_zones.map QuarantineZone.current_count = [0] ∧
    (c2sim.update stillRand).agents.map Agent.in_quarantine = [true] ∧
    (c2sim.update stillRand).quarantine_zones.map QuarantineZone.current_count = [0] := by
  decide

/-- C2, amended: joining a zone sets only the agent's quarantine flag and
target; the engine never modifies the zone list at all, so occupancy is
neither incremented nor decremented over a run. -/
theorem C2_zones_constant (sim : Simulation) (r : Rand) :
    (sim.update r).quarantine_zones = sim.quarantine_zones := by
  unfold Simulation.update
  split <;> rfl

/-! ### Claim C3 -/

/-- C3, counterexample: `staleAgent` is separated (distance 100 ≥ radius
15) from its formerly Infected partner who has recovered, yet after the
contact pass the pair's contact-duration entry is still present — the
deletion branch runs only for partners that are still Infected. -/
theorem C3_stale_entry_persists :
    recPartner.state = AgentState.recovered ∧
    ¬ distSq staleAgent recPartner < INFECTION_RADIUS ^ 2 ∧
    ctLookup (staleAgent.check_infection [staleAgent, recPartner]
        (fun _ => 1)).contact_time recPartner.aid = some 3 := by
  refine ⟨rfl, ?_, ?_⟩
  · norm_num [distSq, staleAgent, recPartner, INFECTION_RADIUS]
  · simp [Agent.check_infection, checkInfectionLoop, staleAgent, recPartner, ctLookup]

/-- C3, amended: after a contact pass that leaves the agent Susceptible
(no infection draw succeeded, so the loop ran to completion), every
partner identity that occurs in the population only as a still-Infected
agent out of the infection radius has no contact-duration entry; entries
for partners that recovered or were removed are NOT deleted. -/
theorem C3_separated_infected_entries_removed (self p : Agent)
    (agents : List Agent) (rng : ℕ → ℚ)
    (hres : (self.check_infection agents rng).state = AgentState.susceptible)
    (hp : p ∈ agents) (hpid : p.aid ≠ self.aid)
    (hall : ∀ q ∈ agents, q.aid = p.aid → q.state = AgentState.infected ∧
        ¬ distSq self q < INFECTION_RADIUS ^ 2) :
    ctLookup (self.check_infection agents rng).contact_time p.aid = none := by
  unfold Agent.check_infection at hres ⊢
  by_cases hs : self.state = AgentState.susceptible
  · rw [if_neg (by simp [hs])] at hres ⊢
    exact checkInfectionLoop_erased rng p.aid agents self 0 hres hpid hall
      (Or.inl ⟨p, hp, rfl⟩)
  · rw [if_pos hs] at hres
    exact absurd hres hs

/-- C3, witness: the amended theorem applied to `staleAgent` and the
still-infected separated partner: the stale entry for identity 7 is
removed. -/
theorem C3_separated_infected_entries_removed_witness :
    ctLookup (staleAgent.check_infection [staleAgent, farInfected]
        (fun _ => 1)).contact_time farInfected.aid = none :=
  C3_separated_infected_entries_removed staleAgent farInfected
    [staleAgent, farInfected] (fun _ => 1)
    (by
      norm_num [Agent.check_infection, checkInfectionLoop, staleAgent,
        farInfected, recPartner, distSq, INFECTION_RADIUS, ctErase])
    (by simp)
    (by decide)
    (by
      intro q hq hqa
      rcases List.mem_cons.mp hq with rfl | hq2
      · exact absurd hqa (by decide)
      · rcases List.mem_cons.mp hq2 with rfl | hq3
        · refine ⟨rfl, ?_⟩
          norm_num [distSq, staleAgent, farInfected, recPartner, INFECTION_RADIUS]
        · simp at hq3)

/-! ### Claim C4 -/

/-- C4, counterexample: an Infected agent at the recovery threshold whose
recovery trial succeeds (draw 0 < 0.7) ends its per-tick update Recovered
but with `in_quarantine = true`: the quarantine-join block follows the
recovery inside the same Infected branch and checks only the (just
cleared) flag, not the current state. -/
theorem C4_recovered_agent_requarantined :
    (c4agent.update [zone0] true (7/10) 0 (fun _ => ((950 : ℚ), (100 : ℚ)))
        idMove).map (fun a => (a.state, a.in_quarantine)) =
      some (AgentState.recovered, true) := by
  unfold Agent.update
  norm_num [c4agent, RECOVERY_TIME, Agent.quarantineJoin, List.find?, zone0,
    QuarantineZone.has_space, Agent.applyMove, idMove]

/-- C4, amended: on a successful recovery trial the agent transitions to
Recovered and its quarantine flag is cleared, but the quarantine-join
block then runs in the same update gated only on the flag: the
just-recovered agent ends the update with `in_quarantine = true` exactly
when quarantine is enabled and some zone has space, and with the flag
false otherwise. -/
theorem C4_recovery_then_rejoin (a : Agent) (zones : List QuarantineZone)
    (enableQ : Bool) (effR draw : ℚ) (place : QuarantineZone → ℚ × ℚ)
    (move : Agent → (ℚ × ℚ) × (ℚ × ℚ))
    (h1 : a.state = AgentState.infected)
    (h2 : RECOVERY_TIME ≤ a.infection_time + 1)
    (h3 : draw < effR) :
    ∃ a', a.update zones enableQ effR draw place move = some a' ∧
      a'.state = AgentState.recovered ∧
      a'.in_quarantine = (enableQ && zones.any fun z => z.has_space) := by
  cases enableQ with
  | false =>
    refine ⟨Agent.applyMove move
      { a with
        infection_time := a.infection_time + 1
        state := AgentState.recovered
        in_quarantine := false }, ?_, by simp, by simp⟩
    unfold Agent.update
    simp [h1, h2, h3]
  | true =>
    cases hfz : zones.find? (fun z => z.has_space) with
    | none =>
      refine ⟨Agent.applyMove move
        { a with
          infection_time := a.infection_time + 1
          state := AgentState.recovered
          in_quarantine := false }, ?_, by simp, ?_⟩
      · unfold Agent.update
        simp [h1, h2, h3, Agent.quarantineJoin, hfz]
      · have hany : zones.any (fun z => z.has_space) = false := by
          rw [← find?_isSome_eq_any, hfz]
          rfl
        simp [hany]
    | some z =>
      refine ⟨Agent.applyMove move
        { a with
          infection_time := a.infection_time + 1
          state := AgentState.recovered
          in_quarantine := true
          quarantine_position := some (place z) }, ?_, by simp, ?_⟩
      · unfold Agent.update
        simp [h1, h2, h3, Agent.quarantineJoin, hfz]
      · have hany : zones.any (fun z => z.has_space) = true := by
          rw [← find?_isSome_eq_any, hfz]
          rfl
        simp [hany]

/-- C4, witness: the amended theorem applied to `c4agent` with quarantine
enabled and a zone with free capacity. -/
theorem C4_recovery_then_rejoin_witness :
    c4agent.state = AgentState.infected ∧
    RECOVERY_TIME ≤ c4agent.infection_time + 1 ∧
    ((0 : ℚ) < 7/10) ∧
    (∃ a', c4agent.update [zone0] true (7/10) 0
        (fun _ => ((950 : ℚ), (100 : ℚ))) idMove = some a' ∧
      a'.state = AgentState.recovered ∧
      a'.in_quarantine = (true && [zone0].any fun z => z.has_space)) :=
  ⟨rfl, by decide, by norm_num,
    C4_recovery_then_rejoin c4agent [zone0] true (7/10) 0
      (fun _ => ((950 : ℚ), (100 : ℚ))) idMove rfl (by decide) (by norm_num)⟩

/-! ### Claim C6 -/

/-- C6: every operation moves an agent's health state only along the
allowed edges: the per-tick update either keeps the state, moves
Infected→Recovered, or removes the agent — and only an Infected agent can
be removed; the contact check at most moves along its edges (it only ever
sets Susceptible→Infected); vaccination at most moves Susceptible→Immune.
`stepAllowed` makes Recovered and Immune absorbing. -/
theorem C6_state_transitions :
    (∀ (a : Agent) (zones : List QuarantineZone) (enableQ : Bool) (effR draw : ℚ)
      (place : QuarantineZone → ℚ × ℚ) (move : Agent → (ℚ × ℚ) × (ℚ × ℚ))
      (a' : Agent),
      a.update zones enableQ effR draw place move = some a' →
      stepAllowed a.state a'.state = true) ∧
    (∀ (a : Agent) (zones : List QuarantineZone) (enableQ : Bool) (effR draw : ℚ)
      (place : QuarantineZone → ℚ × ℚ) (move : Agent → (ℚ × ℚ) × (ℚ × ℚ)),
      a.update zones enableQ effR draw place move = none →
      a.state = AgentState.infected) ∧
    (∀ (self : Agent) (agents : List Agent) (rng : ℕ → ℚ),
      stepAllowed self.state (self.check_infection agents rng).state = true) ∧
    (∀ (a : Agent) (draw : ℚ),
      stepAllowed a.state (a.vaccinate draw).1.state = true) := by
  refine ⟨?_, ?_, ?_, ?_⟩
  · intro a zones enableQ effR draw place move a' h
    have hcases : a'.state = a.state ∨
        (a.state = AgentState.infected ∧ a'.state = AgentState.recovered) := by
      simp only [Agent.update] at h
      split at h
      · rename_i hs
        split at h
        · split at h
          · simp only [Option.map_some', Option.some.injEq] at h
            subst h
            refine Or.inr ⟨hs, ?_⟩
            rw [applyMove_state]
            split
            · rw [quarantineJoin_state]
            · rfl
          · simp at h
        · simp only [Option.map_some', Option.some.injEq] at h
          subst h
          refine Or.inl ?_
          rw [applyMove_state]
          split
          · rw [quarantineJoin_state]
          · rfl
      · simp only [Option.map_some', Option.some.injEq] at h
        subst h
        exact Or.inl (applyMove_state _ _)
    rcases hcases with h1 | ⟨h1, h2⟩
    · rw [h1]
      exact stepAllowed_refl _
    · rw [h1, h2]
      rfl
  · intro a zones enableQ effR draw place move h
    by_cases hs : a.state = AgentState.infected
    · exact hs
    · simp only [Agent.update] at h
      rw [if_neg hs] at h
      simp at h
  · intro self agents rng
    unfold Agent.check_infection
    by_cases hs : self.state = AgentState.susceptible
    · rw [if_neg (by simp [hs])]
      rcases checkInfectionLoop_state rng agents self 0 with h | h
      · rw [h]
        exact stepAllowed_refl _
      · rw [h, hs]
        rfl
    · rw [if_pos hs]
      exact stepAllowed_refl _
  · intro a draw
    unfold Agent.vaccinate
    by_cases hs : a.state = AgentState.susceptible
    · by_cases hd : draw < VACCINATION_SUCCESS_RATE
      · rw [if_pos hs, if_pos hd, hs]
        rfl
      · rw [if_pos hs, if_neg hd]
        exact stepAllowed_refl _
    · rw [if_neg hs]
      exact stepAllowed_refl _

/-- C6, witness: a Susceptible agent survives an update unchanged
(reflexive edge), and the vaccination conjunct at a concrete agent. -/
theorem C6_state_transitions_witness :
    agentS.update [] false (7/10) 1 (fun _ => ((950 : ℚ), (100 : ℚ))) idMove =
      some agentS ∧
    stepAllowed agentS.state agentS.state = true ∧
    stepAllowed agentS.state (agentS.vaccinate 0).1.state = true :=
  ⟨rfl,
    C6_state_transitions.1 agentS [] false (7/10) 1
      (fun _ => ((950 : ℚ), (100 : ℚ))) idMove agentS rfl,
    C6_state_transitions.2.2.2 agentS 0⟩

/-! ### Claim C1 -/

/-- A Susceptible agent at the origin. -/
def susNearAgent : Agent :=
  { aid := 0
    posX := 0
    posY := 0
    velX := 1
    velY := 0
    speed := 2
    state := AgentState.susceptible
    infection_time := 0
    contact_time := []
    in_quarantine := false
    quarantine_position := none }

/-- An Infected agent one unit away from `susNearAgent` (well inside the
infection radius 15). -/
def infNearAgent : Agent :=
  { susNearAgent with aid := 1, posY := 1, state := AgentState.infected }

def c1sim : Simulation :=
  { agents := [susNearAgent, infNearAgent]
    statistics := Statistics.mk0
    quarantine_zones := []
    infection_prob_multiplier := 2
    recovery_prob_multiplier := 1
    vaccination_rate_multiplier := 1
    enable_quarantine := false
    paused := false
    frame_count := 0 }

def c1rand : Rand :=
  { recoveryDraw := fun _ => 1
    place := fun _ _ => (950, 100)
    move := fun _ => idMove
    contactRng := fun _ _ => 3/100 }

/-- C1 (code bug): the engine computes `effective_infection_prob =
BASE_INFECTION_PROB * infection_prob_multiplier` (source line 415) but
never uses it — `check_infection` draws against `infection_chance`, which
contains no multiplier factor.  With multiplier 2, contact duration 1 and
draw 0.03: the spec's formula 0.02 × 2 × 1.01 = 0.0404 would infect, but
the code's threshold is 0.02 × 1.01 = 0.0202, so the Susceptible agent
stays Susceptible; moreover the whole tick is invariant under changing the
infection multiplier. -/
theorem C1_multiplier_never_applied :
    ((3/100 : ℚ) < spec_infection_chance 2 1) ∧
    ¬ ((3/100 : ℚ) < infection_chance 1) ∧
    (c1sim.update c1rand).agents.map Agent.state =
      [AgentState.susceptible, AgentState.infected] ∧
    (∀ m : ℚ,
      (({ c1sim with infection_prob_multiplier := m }).update c1rand).agents =
        (c1sim.update c1rand).agents) := by
  refine ⟨by norm_num [spec_infection_chance, BASE_INFECTION_PROB],
    by norm_num [infection_chance, BASE_INFECTION_PROB], ?_, fun m => rfl⟩
  norm_num [Simulation.update, c1sim, c1rand, updateAgents, Agent.update,
    contactPass, contactPassAux, Agent.check_infection, checkInfectionLoop,
    Agent.applyMove, idMove, susNearAgent, infNearAgent, distSq,
    infection_chance, BASE_INFECTION_PROB, INFECTION_RADIUS, ctLookup,
    ctInsert, RECOVERY_TIME, Statistics.mk0]
  decide

/-! ### Claim C5 -/

/-- Every agent of the freshly built population is Susceptible or
Infected. -/
theorem initialPopulation_states (r : ResetRand) (a : Agent)
    (ha : a ∈ initialPopulation r) :
    a.state = AgentState.susceptible ∨ a.state = AgentState.infected := by
  unfold initialPopulation at ha
  rcases List.mem_append.mp ha with h | h
  · rcases List.mem_map.mp h with ⟨i, _, rfl⟩
    exact Or.inl rfl
  · rcases List.mem_map.mp h with ⟨i, _, rfl⟩
    exact Or.inr rfl

/-- The vaccination candidates of a reset are exactly the identities
0 … 194 of the Susceptible block. -/
theorem initialPopulation_cands (r : ResetRand) :
    (((initialPopulation r).filter fun a =>
        a.state = AgentState.susceptible).map Agent.aid) =
      List.range (INITIAL_POPULATION - INITIAL_INFECTED) := by
  simp [initialPopulation, List.filter_append, List.filter_map,
    Function.comp_def, Agent.init]

/-- When the top-level gate draw fails, a reset produces the raw initial
population (no vaccination pass). -/
theorem reset_agents_gate_closed (sim : Simulation) (r : ResetRand)
    (hg : ¬ r.gateDraw < sim.vaccination_rate_multiplier) :
    (sim.reset_simulation r).agents = initialPopulation r := by
  unfold Simulation.reset_simulation
  dsimp only
  rw [if_neg hg]

/-- When the top-level gate draw passes, a reset vaccinates the sampled
candidates of the initial population. -/
theorem reset_agents_gate_open (sim : Simulation) (r : ResetRand)
    (hg : r.gateDraw < sim.vaccination_rate_multiplier) :
    (sim.reset_simulation r).agents = (initialPopulation r).map fun a =>
      if a.aid ∈ r.sampleIds
          (((initialPopulation r).filter fun a =>
            a.state = AgentState.susceptible).map Agent.aid)
          (min (⌊(INITIAL_POPULATION : ℚ) * VACCINATION_RATE *
              sim.vaccination_rate_multiplier⌋.toNat)
            (((initialPopulation r).filter fun a =>
              a.state = AgentState.susceptible).map Agent.aid).length)
        then (a.vaccinate (r.vaccDraw a.aid)).1 else a := by
  unfold Simulation.reset_simulation
  dsimp only
  rw [if_pos hg]

/-- Reset draws: gate draw 1/2, positions at the origin, `random.sample`
modelled as taking the first k candidates, all vaccination trials at 0
(always below the 0.9 success rate). -/
def c5reset : ResetRand :=
  { initPos := fun _ => ((0, 0), (1, 0))
    gateDraw := 1/2
    sampleIds := fun ids k => ids.take k
    vaccDraw := fun _ => 0 }

def c5sim : Simulation :=
  { agents := []
    statistics := Statistics.mk0
    quarantine_zones := []
    infection_prob_multiplier := 1
    recovery_prob_multiplier := 1
    vaccination_rate_multiplier := 1
    enable_quarantine := true
    paused := false
    frame_count := 0 }

/-- C5, counterexample: loading scenario 1 (whose vaccination-rate
multiplier is 0) from a simulation whose current multiplier is 1 runs the
reset — and its vaccination pass — under the old multiplier: the gate draw
1/2 passes against the old value 1 (it would fail against the scenario's
0), and the loaded population contains an Immune agent, while a reset
carried out under the scenario's multiplier 0 vaccinates nobody. -/
theorem C5_reset_uses_preload_multipliers :
    (c5sim.load_scenario 1 c5reset).vaccination_rate_multiplier = 0 ∧
    c5reset.gateDraw < c5sim.vaccination_rate_multiplier ∧
    ¬ c5reset.gateDraw <
      (c5sim.load_scenario 1 c5reset).vaccination_rate_multiplier ∧
    (∃ a ∈ (c5sim.load_scenario 1 c5reset).agents,
      a.state = AgentState.immune) ∧
    (∀ a ∈ (({ c5sim with vaccination_rate_multiplier := 0 }).reset_simulation
        c5reset).agents, a.state ≠ AgentState.immune) := by
  refine ⟨rfl, by norm_num [c5sim, c5reset], ?_, ?_, ?_⟩
  · show ¬ c5reset.gateDraw < (0 : ℚ)
    norm_num [c5reset]
  · show ∃ a ∈ (c5sim.reset_simulation c5reset).agents,
      a.state = AgentState.immune
    rw [reset_agents_gate_open c5sim c5reset (by norm_num [c5sim, c5reset]),
      initialPopulation_cands]
    have ha0 : Agent.init 0 (c5reset.initPos 0).1.1 (c5reset.initPos 0).1.2
        (c5reset.initPos 0).2.1 (c5reset.initPos 0).2.2
        AgentState.susceptible ∈ initialPopulation c5reset := by
      unfold initialPopulation
      refine List.mem_append_left _ ?_
      exact List.mem_map_of_mem _ (List.mem_range.mpr
        (by norm_num [INITIAL_POPULATION, INITIAL_INFECTED]))
    refine ⟨_, List.mem_map_of_mem _ ha0, ?_⟩
    norm_num [c5reset, c5sim, Agent.init, Agent.vaccinate, INITIAL_POPULATION,
      INITIAL_INFECTED, VACCINATION_RATE, VACCINATION_SUCCESS_RATE,
      List.take_range, List.length_range, List.mem_range]
  · intro a ha
    rw [reset_agents_gate_closed _ _ (by norm_num [c5reset, c5sim])] at ha
    rcases initialPopulation_states c5reset a ha with h | h <;> simp [h]

/-- C5, amended: `load_scenario` first performs the reset — whose
population rebuild and vaccination pass therefore run under the
multipliers configured before the load — and only afterwards installs the
scenario's multiplier bundle and quarantine flag, which take effect from
the next tick on. -/
theorem C5_scenario_installed_after_reset (sim : Simulation) (r : ResetRand) :
    ((sim.load_scenario 1 r).agents = (sim.reset_simulation r).agents ∧
     (sim.load_scenario 2 r).agents = (sim.reset_simulation r).agents) ∧
    (sim.load_scenario 1 r).infection_prob_multiplier = 2 ∧
    (sim.load_scenario 1 r).recovery_prob_multiplier = 1/2 ∧
    (sim.load_scenario 1 r).vaccination_rate_multiplier = 0 ∧
    (sim.load_scenario 1 r).enable_quarantine = false ∧
    (sim.load_scenario 2 r).infection_prob_multiplier = 4/5 ∧
    (sim.load_scenario 2 r).recovery_prob_multiplier = 3/2 ∧
    (sim.load_scenario 2 r).vaccination_rate_multiplier = 3/2 ∧
    (sim.load_scenario 2 r).enable_quarantine = true :=
  ⟨⟨rfl, rfl⟩, rfl, rfl, rfl, rfl, rfl, rfl, rfl, rfl⟩

/-! ### Claim C7 -/

/-- C7: one engine tick never grows the population: only the death branch
of the per-agent update removes agents and no phase adds any, so the
population after a tick is at most the population before it. -/
theorem C7_population_never_grows (sim : Simulation) (r : Rand) :
    (sim.update r).agents.length ≤ sim.agents.length := by
  unfold Simulation.update
  by_cases hp : sim.paused = true
  · simp [hp]
  · rw [if_neg hp]
    dsimp only
    rw [contactPass_length]
    exact updateAgents_length _ _ _ _ _ _

/-! ### Claim C8 -/

/-- C8: the engine samples statistics exactly when the (just incremented)
tick counter is a multiple of 5; at a sample the histories are extended
with the current counts and the cumulative counters accumulate
`new_infections = max(0, Δinfected + (prev_recovered − recovered))` resp.
`new_recoveries = max(0, Δrecovered)` against the previous sample's
counts, only when positive; off-sample ticks leave them untouched; the
cumulative counters and the death counter never decrease over a tick. -/
theorem C8_statistics_sampling (sim : Simulation) (r : Rand)
    (h : sim.paused = false) :
    (sim.update r).frame_count = sim.frame_count + 1 ∧
    ((sim.frame_count + 1) % 5 ≠ 0 →
      (sim.update r).statistics.infected_history =
        sim.statistics.infected_history ∧
      (sim.update r).statistics.recovered_history =
        sim.statistics.recovered_history ∧
      (sim.update r).statistics.total_infections =
        sim.statistics.total_infections ∧
      (sim.update r).statistics.total_recoveries =
        sim.statistics.total_recoveries) ∧
    ((sim.frame_count + 1) % 5 = 0 →
      (sim.update r).statistics.infected_history =
        pushBounded sim.statistics.infected_history sim.statistics.max_history
          (countState AgentState.infected (sim.update r).agents) ∧
      (sim.update r).statistics.recovered_history =
        pushBounded sim.statistics.recovered_history sim.statistics.max_history
          (countState AgentState.recovered (sim.update r).agents) ∧
      (sim.update r).statistics.total_infections =
        sim.statistics.total_infections +
          (if 0 < max 0
              ((countState AgentState.infected (sim.update r).agents : ℤ) -
                sim.statistics.prev_infected +
                ((sim.statistics.prev_recovered : ℤ) -
                  countState AgentState.recovered (sim.update r).agents))
            then max 0
              ((countState AgentState.infected (sim.update r).agents : ℤ) -
                sim.statistics.prev_infected +
                ((sim.statistics.prev_recovered : ℤ) -
                  countState AgentState.recovered (sim.update r).agents))
            else 0) ∧
      (sim.update r).statistics.total_recoveries =
        sim.statistics.total_recoveries +
          (if 0 < max 0
              ((countState AgentState.recovered (sim.update r).agents : ℤ) -
                sim.statistics.prev_recovered)
            then max 0
              ((countState AgentState.recovered (sim.update r).agents : ℤ) -
                sim.statistics.prev_recovered)
            else 0)) ∧
    sim.statistics.total_infections ≤ (sim.update r).statistics.total_infections ∧
    sim.statistics.total_recoveries ≤ (sim.update r).statistics.total_recoveries ∧
    sim.statistics.death_count ≤ (sim.update r).statistics.death_count := by
  unfold Simulation.update
  rw [if_neg (by simp [h])]
  dsimp only
  by_cases h5 : (sim.frame_count + 1) % 5 = 0
  · rw [if_pos h5]
    unfold Statistics.update
    dsimp only
    refine ⟨rfl, fun hne => absurd h5 hne, fun _ => ⟨rfl, rfl, ?_, ?_⟩,
      ?_, ?_, Nat.le_add_right _ _⟩
    · split <;> simp
    · split <;> simp
    · split
      · exact le_add_of_nonneg_right (le_max_left 0 _)
      · exact le_refl _
    · split
      · exact le_add_of_nonneg_right (le_max_left 0 _)
      · exact le_refl _
  · rw [if_neg h5]
    exact ⟨rfl, fun _ => ⟨rfl, rfl, rfl, rfl⟩, fun he => absurd he h5,
      le_refl _, le_refl _, Nat.le_add_right _ _⟩

def c8sim : Simulation :=
  { agents := []
    statistics := Statistics.mk0
    quarantine_zones := []
    infection_prob_multiplier := 1
    recovery_prob_multiplier := 1
    vaccination_rate_multiplier := 1
    enable_quarantine := false
    paused := false
    frame_count := 4 }

/-- C8, witness: the sampling theorem applied to a running simulation at
tick counter 4, whose next tick (the 5th) is a sample. -/
theorem C8_statistics_sampling_witness :
    c8sim.paused = false ∧
    (c8sim.frame_count + 1) % 5 = 0 ∧
    (c8sim.update stillRand).frame_count = c8sim.frame_count + 1 ∧
    (c8sim.update stillRand).statistics.infected_history =
      pushBounded c8sim.statistics.infected_history c8sim.statistics.max_history
        (countState AgentState.infected (c8sim.update stillRand).agents) ∧
    c8sim.statistics.death_count ≤
      (c8sim.update stillRand).statistics.death_count :=
  ⟨rfl, by decide,
    (C8_statistics_sampling c8sim stillRand rfl).1,
    ((C8_statistics_sampling c8sim stillRand rfl).2.2.1 (by decide)).1,
    (C8_statistics_sampling c8sim stillRand rfl).2.2.2.2.2⟩

/-! ### Claim C9 -/

/-- C9: a statistics sample is total and its rates are well defined on
every population, the empty one included: the infection-rate denominator
is `max 1 |population|`, which is at least 1 (never zero), and the
recovery rate is 0 whenever the infected count is 0. -/
theorem C9_rates_guarded (st : Statistics) (agents : List Agent) :
    (0 : ℚ) < ((max 1 agents.length : ℕ) : ℚ) ∧
    (st.update agents).infection_rate_history =
      pushBounded st.infection_rate_history st.max_history
        (((max 0 ((countState AgentState.infected agents : ℤ) - st.prev_infected +
            ((st.prev_recovered : ℤ) - countState AgentState.recovered agents)) : ℤ) : ℚ) /
          ((max 1 agents.length : ℕ) : ℚ) * 100) ∧
    (countState AgentState.infected agents = 0 →
      (st.update agents).recovery_rate_history =
        pushBounded st.recovery_rate_history st.max_history 0) := by
  refine ⟨?_, rfl, ?_⟩
  · exact_mod_cast Nat.lt_of_lt_of_le Nat.zero_lt_one (Nat.le_max_left 1 _)
  · intro h
    unfold Statistics.update
    simp [h]

/-- C9, witness: a sample over the empty population: the appended recovery
rate is 0. -/
theorem C9_rates_guarded_witness :
    countState AgentState.infected [] = 0 ∧
    (Statistics.mk0.update []).recovery_rate_history =
      pushBounded Statistics.mk0.recovery_rate_history Statistics.mk0.max_history 0 :=
  ⟨by decide, (C9_rates_guarded Statistics.mk0 []).2.2 (by decide)⟩

/-! ### Claim C10 -/

/-- C10: `vaccinate` on a non-Susceptible agent returns false and leaves
the agent unchanged; it returns true exactly when the agent transitions
from Susceptible to Immune; whenever it returns false the agent is
unchanged (in particular after a failed trial on a Susceptible agent). -/
theorem C10_vaccinate_behavior (a : Agent) (draw : ℚ) :
    (a.state ≠ AgentState.susceptible → a.vaccinate draw = (a, false)) ∧
    ((a.vaccinate draw).2 = true ↔
      a.state = AgentState.susceptible ∧
        (a.vaccinate draw).1.state = AgentState.immune) ∧
    ((a.vaccinate draw).2 = false → (a.vaccinate draw).1 = a) := by
  unfold Agent.vaccinate
  by_cases hs : a.state = AgentState.susceptible
  · by_cases hd : draw < VACCINATION_SUCCESS_RATE
    · simp [hs, hd]
    · simp [hs, hd]
  · simp [hs]

/-- C10, witness: a Recovered agent is rejected unchanged, and a
Susceptible agent with a succeeding draw turns Immune with result true. -/
theorem C10_vaccinate_behavior_witness :
    agentR.state ≠ AgentState.susceptible ∧
    agentR.vaccinate (1/2) = (agentR, false) ∧
    (agentS.vaccinate 0).2 = true :=
  ⟨by decide, (C10_vaccinate_behavior agentR (1/2)).1 (by decide),
    by norm_num [Agent.vaccinate, agentS, VACCINATION_SUCCESS_RATE]⟩

end Epidemic
